import Mathlib

/-!
# Verification of the Moltbook Reader CLI core

Shallow embedding of `src/moltbook/__init__.py`: the request/retry layer
(`get_api_key`, `make_request`) and the rendering helpers and paths
(`truncate_text`, `maybe_truncate`, `format_timestamp`, the `submolts`
listing, the `fetch` view).  Text is modelled as `List Char` so that all
definitions compute; Python `str` operations used by the source
(`replace` with one-character patterns, slicing, `rstrip`, `isdigit`)
are modelled on `List Char`.
-/

namespace Moltbook

/-- ASCII decimal digit test; models the character class accepted by
Python's `str.isdigit` restricted to ASCII (the only characters a
well-formed `Retry-After` header can carry). -/
def isDigitChar (c : Char) : Bool := '0' ≤ c && c ≤ '9'

/-- Numeric value of a list of decimal digit characters, most significant
first; models `int(s)` on a digit string. -/
def digitsToNat (cs : List Char) : Nat :=
  cs.foldl (fun a c => 10 * a + (c.toNat - '0'.toNat)) 0

/-- Decimal digits of `n`, most significant first (auxiliary, fuel-based
so that it reduces by `decide`). -/
def natToCharsAux : Nat → Nat → List Char
  | 0, _ => []
  | _ + 1, 0 => []
  | fuel + 1, n =>
      natToCharsAux fuel (n / 10) ++ [Char.ofNat ('0'.toNat + n % 10)]

/-- Decimal rendering of a natural number; models `str(n)` / `f-string`
formatting of a nonnegative integer. -/
def natToChars (n : Nat) : List Char :=
  if n = 0 then ['0'] else natToCharsAux n n

/-- Zero-padded decimal rendering of width `k`; models `strftime`'s
zero-padded numeric directives. -/
def padNat (k : Nat) (n : Nat) : List Char :=
  List.replicate (k - (natToChars n).length) '0' ++ natToChars n

/-- The whitespace characters removed by Python's `str.rstrip()` with no
argument, restricted to ASCII. -/
def pyIsSpace (c : Char) : Bool :=
  c = ' ' || c = '\t' || c = '\n' || c = '\r' || c = '\x0b' || c = '\x0c'

/-- `text.replace("\n", " ").replace("\r", "")` from `truncate_text`
(`__init__.py:111`): newlines become spaces, carriage returns vanish. -/
def collapseText (t : List Char) : List Char :=
  (t.map fun c => if c = '\n' then ' ' else c).filter fun c => c ≠ '\r'

/-- Python `s.rstrip()`: drop trailing whitespace. -/
def pyRstrip (t : List Char) : List Char :=
  (t.reverse.dropWhile pyIsSpace).reverse

/-- `truncate_text` (`__init__.py:107-114`): empty text maps to empty;
otherwise line breaks are collapsed and, when the collapsed text exceeds
`max_length`, the first `max_length` characters are kept, trailing
whitespace stripped, and `"..."` appended. -/
def truncate_text (text : List Char) (max_length : Nat) : List Char :=
  if text = [] then []
  else
    let t := collapseText text
    if t.length > max_length then pyRstrip (t.take max_length) ++ "...".toList
    else t

/-- `maybe_truncate` (`__init__.py:117-120`); `text or ""` on a `str` is
the identity (the empty string maps to itself), so the no-truncate branch
returns the text unchanged. -/
def maybe_truncate (text : List Char) (max_length : Nat) (no_truncate : Bool) :
    List Char :=
  if no_truncate then text else truncate_text text max_length

/-! ## Timestamp helper (`format_timestamp`, `__init__.py:98-104`) -/

/-- The naive fields of a parsed `datetime`; `strftime` reads the stored
wall-clock fields, so the parsed UTC offset (kept for parse fidelity)
never influences the rendered output. -/
structure PyDatetime where
  year : Nat
  month : Nat
  day : Nat
  hour : Nat
  minute : Nat
  second : Nat
  microsecond : Nat
  tzOffsetMinutes : Option Int
deriving DecidableEq

/-- Read exactly `n` decimal digits from the front of `cs`. -/
def parseNDigits (n : Nat) (cs : List Char) : Option (Nat × List Char) :=
  let pre := cs.take n
  if pre.length = n && pre.all isDigitChar then some (digitsToNat pre, cs.drop n)
  else none

/-- Consume an expected single character. -/
def expectChar (c : Char) : List Char → Option (List Char)
  | [] => none
  | d :: rest => if d = c then some rest else none

/-- Whether `y` is a leap year (Gregorian rule used by `datetime`). -/
def isLeapYear (y : Nat) : Bool :=
  (y % 4 = 0 && y % 100 ≠ 0) || y % 400 = 0

/-- Days in month `m` of year `y`, as validated by `datetime`. -/
def daysInMonth (y m : Nat) : Nat :=
  if m = 2 then (if isLeapYear y then 29 else 28)
  else if m = 4 || m = 6 || m = 9 || m = 11 then 30
  else 31

/-- Parse the optional `±HH:MM` UTC offset at the end of an ISO string,
returning signed minutes.  Requires the whole remainder to be consumed. -/
def parseOffset : List Char → Option (Option Int)
  | [] => some none
  | c :: rest =>
      if c = '+' || c = '-' then
        match parseNDigits 2 rest with
        | none => none
        | some (oh, r1) =>
          match expectChar ':' r1 with
          | none => none
          | some r2 =>
            match parseNDigits 2 r2 with
            | none => none
            | some (om, r3) =>
              if r3 = [] && oh ≤ 23 && om ≤ 59 then
                let mins : Int := (oh * 60 + om : Nat)
                some (some (if c = '-' then -mins else mins))
              else none
      else none

/-- Parse `[:MM[:SS[.ffffff]]]` plus optional offset after the hour. -/
def parseMinSec (cs : List Char) : Option (Nat × Nat × Nat × Option Int) :=
  match expectChar ':' cs with
  | none => (parseOffset cs).map fun off => (0, 0, 0, off)
  | some r1 =>
    match parseNDigits 2 r1 with
    | none => none
    | some (mi, r2) =>
      match expectChar ':' r2 with
      | none => (parseOffset r2).map fun off => (mi, 0, 0, off)
      | some r3 =>
        match parseNDigits 2 r3 with
        | none => none
        | some (se, r4) =>
          match expectChar '.' r4 with
          | none => (parseOffset r4).map fun off => (mi, se, 0, off)
          | some r5 =>
            let frac := r5.takeWhile isDigitChar
            let r6 := r5.dropWhile isDigitChar
            if frac = [] then none
            else (parseOffset r6).map fun off =>
              (mi, se, digitsToNat (frac.take 6), off)

/-- Models the subset of `datetime.fromisoformat` exercised by this
program: `YYYY-MM-DD`, optionally followed by a one-character separator
and `HH[:MM[:SS[.f…]]]` with an optional `±HH:MM` offset, with the usual
calendar/clock range validation.  (`fromisoformat` accepts further exotic
ISO-8601 shapes that no caller here produces.) -/
def fromisoformat (cs : List Char) : Option PyDatetime :=
  match parseNDigits 4 cs with
  | none => none
  | some (y, r1) =>
    match expectChar '-' r1 with
    | none => none
    | some r2 =>
      match parseNDigits 2 r2 with
      | none => none
      | some (mo, r3) =>
        match expectChar '-' r3 with
        | none => none
        | some r4 =>
          match parseNDigits 2 r4 with
          | none => none
          | some (d, r5) =>
            if 1 ≤ y && y ≤ 9999 && 1 ≤ mo && mo ≤ 12 && 1 ≤ d &&
                d ≤ daysInMonth y mo then
              match r5 with
              | [] => some ⟨y, mo, d, 0, 0, 0, 0, none⟩
              | _sep :: r6 =>
                match parseNDigits 2 r6 with
                | none => none
                | some (h, r7) =>
                  match parseMinSec r7 with
                  | none => none
                  | some (mi, se, us, off) =>
                    if h ≤ 23 && mi ≤ 59 && se ≤ 59 then
                      some ⟨y, mo, d, h, mi, se, us, off⟩
                    else none
            else none

/-- `iso_string.replace("Z", "+00:00")`: every `Z` expands to `+00:00`. -/
def pyReplaceZ (cs : List Char) : List Char :=
  cs.flatMap fun c => if c = 'Z' then "+00:00".toList else [c]

/-- `dt.strftime("%Y-%m-%d %H:%M")` on the stored wall-clock fields. -/
def strftimeYmdHM (dt : PyDatetime) : List Char :=
  padNat 4 dt.year ++ "-".toList ++ padNat 2 dt.month ++ "-".toList ++
    padNat 2 dt.day ++ " ".toList ++ padNat 2 dt.hour ++ ":".toList ++
    padNat 2 dt.minute

/-- `format_timestamp` (`__init__.py:98-104`): replace `Z`, try to parse,
render `%Y-%m-%d %H:%M` on success, echo the original on any failure. -/
def format_timestamp (iso_string : List Char) : List Char :=
  match fromisoformat (pyReplaceZ iso_string) with
  | some dt => strftimeYmdHM dt
  | none => iso_string

/-! ## Credential resolution (`get_api_key`, `__init__.py:40-56`) -/

/-- State of the fixed-path credentials file
(`~/.config/moltbook/credentials.json`): absent, unreadable, not valid
JSON, or parsed with an optional `"api_key"` field. -/
inductive CredFile where
  | missing
  | readError
  | badJson
  | parsed (api_key : Option (List Char))
deriving DecidableEq

/-- What the `CONFIG_PATH` branch of `get_api_key` yields: `None` when the
file is absent, on `IOError`/`json.JSONDecodeError` (the `except … pass`
then falls through to `return None`), and `config.get("api_key")` when the
file parses. -/
def credFileApiKey : CredFile → Option (List Char)
  | .missing => none
  | .readError => none
  | .badJson => none
  | .parsed k => k

/-- `get_api_key` (`__init__.py:40-56`): the `MOLTBOOK_API_KEY`
environment variable wins when set and non-empty (`if api_key:` is a
truthiness test, so an empty string falls through); otherwise the config
file is consulted. -/
def get_api_key (env : Option (List Char)) (file : CredFile) :
    Option (List Char) :=
  match env with
  | some k => if k ≠ [] then some k else credFileApiKey file
  | none => credFileApiKey file

/-! ## Request executor (`make_request`, `__init__.py:59-95`) -/

/-- An HTTP header list, in insertion order. -/
abbrev Headers : Type := List (List Char × List Char)

/-- The headers `make_request` builds once before its retry loop
(`__init__.py:62-67`): the fixed `User-Agent`, plus `Authorization` iff
`auth` was requested and a non-empty key resolved (`if api_key:`). -/
def requestHeaders (env : Option (List Char)) (file : CredFile)
    (auth : Bool) : Headers :=
  let base : Headers :=
    [("User-Agent".toList, "Moltbook-Reader/1.0".toList)]
  if auth then
    match get_api_key env file with
    | some k =>
        if k ≠ [] then
          base ++ [("Authorization".toList, "Bearer ".toList ++ k)]
        else base
    | none => base
  else base

/-- What one call to `requests.get` produces: a timeout, a transport
failure, or a response with a status code, an optional `Retry-After`
header, and a body that deserializes (`some`) or raises
`json.JSONDecodeError` (`none`). -/
inductive AttemptResult (β : Type) where
  | timeout
  | connError
  | response (status : Nat) (retryAfter : Option (List Char)) (body : Option β)
deriving DecidableEq

/-- Terminal outcome of `make_request`: the deserialized body, or one of
the four fatal error paths (`__init__.py:84-95`), each of which prints a
message and exits the process. -/
inductive Outcome (β : Type) where
  | ok (body : β)
  | timedOut
  | connectionFailed
  | httpError (status : Nat)
  | invalidJson
deriving DecidableEq

/-- Process exit status produced by the outcome: every error path calls
`sys.exit(1)`; success returns to the command, which exits 0. -/
def exitCode {β : Type} : Outcome β → Nat
  | .ok _ => 0
  | _ => 1

/-- The message printed on each fatal path (markup stripped). -/
def errorMessage {β : Type} : Outcome β → Option (List Char)
  | .ok _ => none
  | .timedOut => some "Error: Request timed out".toList
  | .connectionFailed => some "Error: Could not connect to Moltbook".toList
  | .httpError s => some ("Error: HTTP ".toList ++ natToChars s)
  | .invalidJson => some "Error: Invalid JSON response".toList

/-- `MAX_RETRIES` (`__init__.py:34`). -/
def MAX_RETRIES : Nat := 3

/-- `RETRY_STATUSES` (`__init__.py:35`). -/
def RETRY_STATUSES : List Nat := [429, 500, 502, 503, 504]

/-- The loop's retry test (`__init__.py:74`), minus the attempt bound:
only an actual response with a retryable status retries; a raised
`Timeout`/`ConnectionError` escapes the loop to its handler at once. -/
def isRetryable {β : Type} : AttemptResult β → Bool
  | .response s _ _ => s ∈ RETRY_STATUSES
  | _ => false

/-- `int(RETRY_BACKOFF ** attempt)` with `RETRY_BACKOFF = 1.5`
(`__init__.py:36,79`): `1.5 ** n` is the exact dyadic `3^n / 2^n` for the
small exponents the loop can reach (0, 1, 2), and `int` truncates toward
zero, which on a positive value is floor — i.e. `Nat` division. -/
def backoff (attempt : Nat) : Nat := 3 ^ attempt / 2 ^ attempt

/-- The server hint actually used (`__init__.py:75-77`): the `Retry-After`
header value when present, non-empty and all digits (`retry_after and
retry_after.isdigit()`), as a number. -/
def hintValue {β : Type} : AttemptResult β → Option Nat
  | .response _ (some ra) _ =>
      if ra ≠ [] && ra.all isDigitChar then some (digitsToNat ra) else none
  | _ => none

/-- The wait computed before a retry (`__init__.py:75-80`): the digit
hint when usable, otherwise exponential backoff for this attempt. -/
def retryWait {β : Type} (r : AttemptResult β) (attempt : Nat) : Nat :=
  match hintValue r with
  | some w => w
  | none => backoff attempt

/-- `response.raise_for_status()` then `response.json()`
(`__init__.py:82-83`), with the exception handlers of
`__init__.py:84-95` applied: statuses in `[400, 600)` raise `HTTPError`,
otherwise the body is returned or `JSONDecodeError` fires. -/
def handleResponse {β : Type} : AttemptResult β → Outcome β
  | .timeout => .timedOut
  | .connError => .connectionFailed
  | .response s _ body =>
      if 400 ≤ s ∧ s < 600 then .httpError s
      else
        match body with
        | some b => .ok b
        | none => .invalidJson

/-- Everything observable about one `make_request` call: its outcome, the
sequence of `time.sleep` durations, and the headers sent on each issued
attempt. -/
structure RequestTrace (β : Type) where
  outcome : Outcome β
  waits : List Nat
  headersSent : List Headers
deriving DecidableEq

/-- The `for attempt in range(MAX_RETRIES + 1)` loop
(`__init__.py:70-83`), fuel-indexed: `resp attempt` is what the
`attempt`-th `requests.get` produces.  Started with fuel
`MAX_RETRIES + 1` at attempt 0 the fuel never runs out, because the loop
only continues while `attempt < MAX_RETRIES`. -/
def requestLoop {β : Type} (resp : Nat → AttemptResult β) (hdrs : Headers) :
    Nat → Nat → RequestTrace β
  | 0, attempt =>
      { outcome := handleResponse (resp attempt), waits := [],
        headersSent := [hdrs] }
  | fuel + 1, attempt =>
      let r := resp attempt
      if isRetryable r = true ∧ attempt < MAX_RETRIES then
        let rest := requestLoop resp hdrs fuel (attempt + 1)
        { outcome := rest.outcome,
          waits := retryWait r attempt :: rest.waits,
          headersSent := hdrs :: rest.headersSent }
      else
        { outcome := handleResponse r, waits := [], headersSent := [hdrs] }

/-- `make_request` (`__init__.py:59-95`): resolve headers once, then run
the retry loop.  `env`/`file` model the credential sources, `resp` the
behaviour of the network on each attempt. -/
def make_request {β : Type} (env : Option (List Char)) (file : CredFile)
    (auth : Bool) (resp : Nat → AttemptResult β) : RequestTrace β :=
  requestLoop resp (requestHeaders env file auth) (MAX_RETRIES + 1) 0

/-! ## JSON values and the `fetch` rendering path (`__init__.py:334-381`) -/

/-- Deserialized JSON values as Python sees them (numbers restricted to
integers; no response field this program touches is fractional). -/
inductive PyJson where
  | null
  | bool (b : Bool)
  | num (n : Int)
  | str (s : List Char)
  | arr (items : List PyJson)
  | obj (fields : List (List Char × PyJson))

/-- Python truthiness on a JSON value: `None`, `False`, `0`, `""`, `[]`
and `{}` are falsy. -/
def pyTruthy : PyJson → Bool
  | .null => false
  | .bool b => b
  | .num n => n ≠ 0
  | .str s => s ≠ []
  | .arr items => !items.isEmpty
  | .obj fields => !fields.isEmpty

/-- `d.get(k)` on a deserialized JSON object: `None` (here `none`) when
the key is absent; only objects carry keys. -/
def objGet (j : PyJson) (k : List Char) : Option PyJson :=
  match j with
  | .obj fields => (fields.find? fun f => f.1 = k).map Prod.snd
  | _ => none

/-- `d.get(k, default)`. -/
def objGetD (j : PyJson) (k : List Char) (default : PyJson) : PyJson :=
  (objGet j k).getD default

/-- The string a rendered field displays; response fields this renderer
reads are strings when present, so only that case matters. -/
def jsonAsStr : PyJson → List Char
  | .str s => s
  | _ => []

/-- The integer a rendered count displays. -/
def jsonAsInt : PyJson → Int
  | .num n => n
  | _ => 0

/-- The panel `fetch` builds for a truthy post (`__init__.py:351-381`),
with each field read exactly as the source reads it (`.get` defaults:
`"No title"`, `""`, nested `author.name` defaulting to `"Unknown"`,
counts defaulting to `0`, `submolt.display_name` defaulting to
`"General"`, `created_at` piped through `format_timestamp`). -/
structure PostPanel where
  title : List Char
  content : List Char
  author : List Char
  upvotes : Int
  downvotes : Int
  comment_count : Int
  created_at : List Char
  submolt : List Char
deriving DecidableEq

/-- Field extraction of the `fetch` renderer on a truthy `post` value. -/
def postPanelOf (post : PyJson) : PostPanel :=
  { title := jsonAsStr (objGetD post "title".toList (.str "No title".toList))
    content := jsonAsStr (objGetD post "content".toList (.str []))
    author := jsonAsStr (objGetD (objGetD post "author".toList (.obj []))
      "name".toList (.str "Unknown".toList))
    upvotes := jsonAsInt (objGetD post "upvotes".toList (.num 0))
    downvotes := jsonAsInt (objGetD post "downvotes".toList (.num 0))
    comment_count := jsonAsInt (objGetD post "comment_count".toList (.num 0))
    created_at := format_timestamp
      (jsonAsStr (objGetD post "created_at".toList (.str [])))
    submolt := jsonAsStr (objGetD (objGetD post "submolt".toList (.obj []))
      "display_name".toList (.str "General".toList)) }

/-- What the formatted `fetch` path shows: either the "Post not found"
notice, or a panel.  The render itself never exits non-zero; `exit`
records the process status the command ends with. -/
structure FetchView where
  notFound : Bool
  panel : Option PostPanel
  exit : Nat
deriving DecidableEq

/-- The formatted branch of `fetch` (`__init__.py:345-381`):
`post = data.get("post")`, then `if not post:` prints the notice and
returns (still exit 0); otherwise the panel is built and shown. -/
def renderFetch (data : PyJson) : FetchView :=
  let post := objGet data "post".toList
  match post with
  | none => { notFound := true, panel := none, exit := 0 }
  | some p =>
      if pyTruthy p = false then { notFound := true, panel := none, exit := 0 }
      else { notFound := false, panel := some (postPanelOf p), exit := 0 }

/-! ## Submolt listing (`submolts`, `__init__.py:384-420`) -/

/-- One element of the envelope's `submolts` list, with the four fields
this path reads; a missing field is `none`. -/
structure Submolt where
  name : Option (List Char)
  display_name : Option (List Char)
  subscriber_count : Option Int
  description : Option (List Char)
deriving DecidableEq

/-- The sort key `x.get("subscriber_count", 0)` (`__init__.py:402`). -/
def pyKey (s : Submolt) : Int := s.subscriber_count.getD 0

/-- The total order realised by Python's stable
`sort(key=…, reverse=True)` on index-decorated elements: strictly larger
key first; among equal keys, the earlier original position first. -/
def keyIdxLe (a b : Nat × Submolt) : Prop :=
  pyKey b.2 < pyKey a.2 ∨ (pyKey a.2 = pyKey b.2 ∧ a.1 ≤ b.1)

instance : DecidableRel keyIdxLe := fun a b => by
  unfold keyIdxLe
  infer_instance

instance : IsTotal (Nat × Submolt) keyIdxLe where
  total a b := by
    unfold keyIdxLe
    rcases lt_trichotomy (pyKey a.2) (pyKey b.2) with h | h | h
    · exact Or.inr (Or.inl h)
    · omega
    · exact Or.inl (Or.inl h)

instance : IsTrans (Nat × Submolt) keyIdxLe where
  trans a b c hab hbc := by
    unfold keyIdxLe at *
    rcases hab with h1 | ⟨h1, h1'⟩ <;> rcases hbc with h2 | ⟨h2, h2'⟩ <;> omega

/-- Decorate a list with 0-based positions starting at `n`. -/
def indexedFrom {α : Type} : Nat → List α → List (Nat × α)
  | _, [] => []
  | n, a :: l => (n, a) :: indexedFrom (n + 1) l

/-- `submolts_list.sort(key=lambda x: x.get("subscriber_count", 0),
reverse=True)` (`__init__.py:402`).  Python's `list.sort` is stable, so
with `reverse=True` it produces the unique permutation ordered by
(key descending, original position ascending); insertion sort over the
index-decorated list by that total order computes exactly that
permutation. -/
def pySortDesc (l : List Submolt) : List Submolt :=
  (List.insertionSort keyIdxLe (indexedFrom 0 l)).map Prod.snd

/-- One rendered table row (`__init__.py:412-417`): display name falling
back to name then `"Unknown"`, the raw count, and the description put
through `truncate_text(…, 60)`. -/
structure SubmoltRow where
  rowName : List Char
  count : Int
  desc : List Char
deriving DecidableEq

/-- Row construction for one submolt (`__init__.py:413-417`). -/
def submoltRow (s : Submolt) : SubmoltRow :=
  { rowName := s.display_name.getD (s.name.getD "Unknown".toList)
    count := pyKey s
    desc := truncate_text (s.description.getD []) 60 }

/-- The part of the response envelope the `submolts` path touches: its
`submolts` field (`none` when the key is missing). -/
structure SubmoltsEnvelope where
  submolts : Option (List Submolt)
deriving DecidableEq

/-- What the formatted `submolts` path shows. -/
structure SubmoltsView where
  noneFound : Bool
  rows : List SubmoltRow
deriving DecidableEq

/-- The formatted branch of `submolts` (`__init__.py:395-420`), returning
the view *and* the envelope as it stands afterwards:
`data.get("submolts", [])` aliases the envelope's own list, and
`list.sort` reorders it in place, so a present non-empty list comes back
sorted; the empty/missing cases return before the sort
(`__init__.py:397-399`). -/
def renderSubmolts (e : SubmoltsEnvelope) (limit : Nat) :
    SubmoltsView × SubmoltsEnvelope :=
  let lst := e.submolts.getD []
  if lst = [] then ({ noneFound := true, rows := [] }, e)
  else
    let sorted := pySortDesc lst
    ({ noneFound := false,
       rows := (sorted.take limit).map submoltRow },
     { submolts := some sorted })

/-! ## Helper lemmas -/

/-- `rstrip` removes a (whitespace) tail: the original is the result
followed by the stripped run. -/
theorem pyRstrip_append_eq (l : List Char) :
    pyRstrip l ++ (l.reverse.takeWhile pyIsSpace).reverse = l := by
  unfold pyRstrip
  rw [← List.reverse_append, List.takeWhile_append_dropWhile,
    List.reverse_reverse]

theorem pyRstrip_length_le (l : List Char) : (pyRstrip l).length ≤ l.length := by
  have h := congrArg List.length (pyRstrip_append_eq l)
  rw [List.length_append] at h
  omega

theorem indexedFrom_map_snd {α : Type} (n : Nat) (l : List α) :
    (indexedFrom n l).map Prod.snd = l := by
  induction l generalizing n with
  | nil => rfl
  | cons a t ih => simp [indexedFrom, ih]

theorem mem_indexedFrom_le {α : Type} {n : Nat} {l : List α} {p : Nat × α}
    (hp : p ∈ indexedFrom n l) : n ≤ p.1 := by
  induction l generalizing n with
  | nil => simp [indexedFrom] at hp
  | cons a t ih =>
    simp only [indexedFrom, List.mem_cons] at hp
    rcases hp with h | h
    · subst h; exact Nat.le_refl n
    · exact Nat.le_of_succ_le (ih h)

theorem pairwise_fst_lt_indexedFrom {α : Type} (n : Nat) (l : List α) :
    (indexedFrom n l).Pairwise (fun a b => a.1 < b.1) := by
  induction l generalizing n with
  | nil => exact List.Pairwise.nil
  | cons a t ih =>
    refine List.Pairwise.cons (fun p hp => ?_) (ih (n + 1))
    exact Nat.lt_of_succ_le (mem_indexedFrom_le hp)

/-- The stable descending sort is a permutation of its input. -/
theorem pySortDesc_perm (l : List Submolt) : (pySortDesc l).Perm l := by
  unfold pySortDesc
  have h := (List.perm_insertionSort keyIdxLe (indexedFrom 0 l)).map Prod.snd
  rwa [indexedFrom_map_snd] at h

/-- The sorted list is non-increasing in subscriber count. -/
theorem pySortDesc_pairwise (l : List Submolt) :
    (pySortDesc l).Pairwise (fun a b => pyKey b ≤ pyKey a) := by
  unfold pySortDesc
  rw [List.pairwise_map]
  refine List.Pairwise.imp ?_
    (List.sorted_insertionSort keyIdxLe (indexedFrom 0 l))
  intro a b hab
  rcases hab with h | ⟨h, _⟩ <;> omega

/-- The decorated sorted list never repeats an original position. -/
theorem sortPairs_fst_ne (l : List Submolt) :
    (List.insertionSort keyIdxLe (indexedFrom 0 l)).Pairwise
      (fun a b => a.1 ≠ b.1) := by
  have h1 : (indexedFrom 0 l).Pairwise (fun a b => a.1 ≠ b.1) :=
    List.Pairwise.imp (fun hab => by omega) (pairwise_fst_lt_indexedFrom 0 l)
  exact ((List.perm_insertionSort keyIdxLe (indexedFrom 0 l)).pairwise_iff
    (fun hxy => hxy.symm)).mpr h1

/-- Core stability fact: filtering the decorated sorted list to one key
class reproduces the corresponding filter of the decorated input. -/
theorem sortPairs_filter_key (l : List Submolt) (q : Submolt → Bool)
    (c : Int) (hq : ∀ s, q s = true → pyKey s = c) :
    (List.insertionSort keyIdxLe (indexedFrom 0 l)).filter (fun p => q p.2) =
      (indexedFrom 0 l).filter (fun p => q p.2) := by
  haveI : IsAntisymm (Nat × Submolt) (fun a b => a.1 < b.1) :=
    ⟨fun a b h h' => absurd h' (by omega)⟩
  have hs1 : List.Sorted (fun (a b : Nat × Submolt) => a.1 < b.1)
      ((List.insertionSort keyIdxLe (indexedFrom 0 l)).filter
        (fun p => q p.2)) := by
    have hsorted := List.sorted_insertionSort keyIdxLe (indexedFrom 0 l)
    have hand := List.Pairwise.and hsorted (sortPairs_fst_ne l)
    have hfil := hand.filter (fun p : Nat × Submolt => q p.2)
    refine hfil.imp_of_mem ?_
    intro a b ha hb hab
    have hac : pyKey a.2 = c := hq _ (List.mem_filter.1 ha).2
    have hbc : pyKey b.2 = c := hq _ (List.mem_filter.1 hb).2
    rcases hab.1 with h | ⟨h, h2⟩
    · omega
    · exact Nat.lt_of_le_of_ne h2 hab.2
  have hs2 : List.Sorted (fun (a b : Nat × Submolt) => a.1 < b.1)
      ((indexedFrom 0 l).filter (fun p => q p.2)) :=
    (pairwise_fst_lt_indexedFrom 0 l).filter (fun p : Nat × Submolt => q p.2)
  exact List.eq_of_perm_of_sorted
    ((List.perm_insertionSort keyIdxLe (indexedFrom 0 l)).filter
      (fun p => q p.2)) hs1 hs2

/-- Filtering on the second component commutes with projecting it. -/
theorem filter_map_snd {α β : Type} (q : β → Bool) (l : List (α × β)) :
    (l.map Prod.snd).filter q = (l.filter fun p => q p.2).map Prod.snd := by
  induction l with
  | nil => rfl
  | cons a t ih => by_cases h : q a.2 <;> simp [h, ih]

/-- Stability, undecorated: the sort preserves the relative order of the
entries sharing any one subscriber count. -/
theorem pySortDesc_filter_key (l : List Submolt) (c : Int) :
    (pySortDesc l).filter (fun s => pyKey s = c) =
      l.filter (fun s => pyKey s = c) := by
  unfold pySortDesc
  rw [filter_map_snd]
  rw [sortPairs_filter_key l (fun s => decide (pyKey s = c)) c
    (fun s hs => of_decide_eq_true hs)]
  rw [← filter_map_snd (fun s => decide (pyKey s = c)) (indexedFrom 0 l),
    indexedFrom_map_snd]

/-- Every issued attempt of one request carries the headers computed once
before the loop. -/
theorem requestLoop_headers {β : Type} (resp : Nat → AttemptResult β)
    (hdrs : Headers) :
    ∀ fuel attempt, ∀ h ∈ (requestLoop resp hdrs fuel attempt).headersSent,
      h = hdrs := by
  intro fuel
  induction fuel with
  | zero =>
    intro attempt h hh
    simp [requestLoop] at hh
    exact hh
  | succ f ih =>
    intro attempt h hh
    by_cases hc : isRetryable (resp attempt) = true ∧ attempt < MAX_RETRIES
    · simp [requestLoop, hc] at hh
      rcases hh with hh | hh
      · exact hh
      · exact ih (attempt + 1) h hh
    · simp [requestLoop, hc] at hh
      exact hh

/-- The loop's outcome does not depend on the headers it sends. -/
theorem requestLoop_outcome_hdrs {β : Type} (resp : Nat → AttemptResult β)
    (h1 h2 : Headers) :
    ∀ fuel attempt,
      (requestLoop resp h1 fuel attempt).outcome =
        (requestLoop resp h2 fuel attempt).outcome := by
  intro fuel
  induction fuel with
  | zero => intro attempt; rfl
  | succ f ih =>
    intro attempt
    by_cases hc : isRetryable (resp attempt) = true ∧ attempt < MAX_RETRIES
    · simp [requestLoop, hc, ih (attempt + 1)]
    · simp [requestLoop, hc]

/-- A 2xx response with a deserializable body after `k` retryable
responses makes the loop return that body. -/
theorem requestLoop_ok {β : Type} (resp : Nat → AttemptResult β)
    (hdrs : Headers) :
    ∀ (k fuel attempt : Nat) (s : Nat) (ra : Option (List Char)) (b : β),
      attempt + fuel = MAX_RETRIES + 1 →
      attempt + k ≤ MAX_RETRIES →
      (∀ i, i < k → isRetryable (resp (attempt + i)) = true) →
      resp (attempt + k) = .response s ra (some b) →
      200 ≤ s → s < 300 →
      (requestLoop resp hdrs fuel attempt).outcome = .ok b := by
  intro k
  have hM : (MAX_RETRIES : Nat) = 3 := rfl
  induction k with
  | zero =>
    intro fuel attempt s ra b hfuel hle hret hresp h2 h3
    rw [Nat.add_zero] at hresp
    cases fuel with
    | zero => rw [hM] at hfuel hle; omega
    | succ f =>
      have hnr : isRetryable (resp attempt) = false := by
        rw [hresp]
        simp [isRetryable, RETRY_STATUSES]
        omega
      have hnot : ¬ (400 ≤ s ∧ s < 600) := by omega
      have hcond : ¬ (isRetryable (resp attempt) = true ∧
          attempt < MAX_RETRIES) := by
        rw [hnr]; simp
      simp only [requestLoop]
      rw [if_neg hcond]
      show handleResponse (resp attempt) = Outcome.ok b
      rw [hresp]
      simp [handleResponse, hnot]
  | succ k ih =>
    intro fuel attempt s ra b hfuel hle hret hresp h2 h3
    cases fuel with
    | zero => rw [hM] at hfuel hle; omega
    | succ f =>
      have h0 : isRetryable (resp attempt) = true := by
        have h := hret 0 (by omega)
        rwa [Nat.add_zero] at h
      have hlt : attempt < MAX_RETRIES := by rw [hM] at hle ⊢; omega
      simp only [requestLoop]
      rw [if_pos ⟨h0, hlt⟩]
      show (requestLoop resp hdrs f (attempt + 1)).outcome = Outcome.ok b
      refine ih f (attempt + 1) s ra b ?_ ?_ ?_ ?_ h2 h3
      · rw [hM] at hfuel ⊢; omega
      · rw [hM] at hle ⊢; omega
      · intro i hi
        have h := hret (i + 1) (by omega)
        rwa [show attempt + (i + 1) = attempt + 1 + i by omega] at h
      · rwa [show attempt + (k + 1) = attempt + 1 + k by omega] at hresp

/-- The wait slept before retry `n` is `retryWait` of the `n`-th
response, provided the loop actually reaches and retries attempt `n`. -/
theorem requestLoop_waits {β : Type} (resp : Nat → AttemptResult β)
    (hdrs : Headers) :
    ∀ (n fuel attempt : Nat),
      n < fuel →
      attempt + n < MAX_RETRIES →
      (∀ i, i ≤ n → isRetryable (resp (attempt + i)) = true) →
      (requestLoop resp hdrs fuel attempt).waits[n]? =
        some (retryWait (resp (attempt + n)) (attempt + n)) := by
  intro n
  have hM : (MAX_RETRIES : Nat) = 3 := rfl
  induction n with
  | zero =>
    intro fuel attempt hf hlt hret
    cases fuel with
    | zero => omega
    | succ f =>
      have h0 : isRetryable (resp attempt) = true := by
        have h := hret 0 (Nat.le_refl 0)
        rwa [Nat.add_zero] at h
      have hlt' : attempt < MAX_RETRIES := by rw [hM] at hlt ⊢; omega
      simp only [requestLoop]
      rw [if_pos ⟨h0, hlt'⟩]
      simp
  | succ m ih =>
    intro fuel attempt hf hlt hret
    cases fuel with
    | zero => omega
    | succ f =>
      have h0 : isRetryable (resp attempt) = true := by
        have h := hret 0 (by omega)
        rwa [Nat.add_zero] at h
      have hlt' : attempt < MAX_RETRIES := by rw [hM] at hlt ⊢; omega
      simp only [requestLoop]
      rw [if_pos ⟨h0, hlt'⟩]
      show (retryWait (resp attempt) attempt ::
        (requestLoop resp hdrs f (attempt + 1)).waits)[m + 1]? =
          some (retryWait (resp (attempt + (m + 1))) (attempt + (m + 1)))
      rw [List.getElem?_cons_succ]
      have h := ih f (attempt + 1) (by omega) (by rw [hM] at hlt ⊢; omega)
        (fun i hi => by
          have h := hret (i + 1) (by omega)
          rwa [show attempt + (i + 1) = attempt + 1 + i by omega] at h)
      rwa [show attempt + 1 + m = attempt + (m + 1) by omega] at h

/-! ## Claim theorems -/

/-- C1 fails as stated: with max 5, the collapsed input "aaaa b" is
strictly longer than 5, yet the output "aaaa..." has length 7, not
5 + 3 — `rstrip` removed the trailing space of the clipped prefix. -/
theorem C1_counterexample :
    (collapseText "aaaa b".toList).length > 5 ∧
      (truncate_text "aaaa b".toList 5).length ≠ 5 + 3 := by
  decide

/-- C1 (amended): for collapsed text strictly longer than the max, the
output is the clipped prefix with trailing whitespace stripped, followed
by the three-character ellipsis — so the output minus the ellipsis is a
prefix of the collapsed input and the output length is at most (not
always exactly) max + 3; text at or under the max is returned collapsed
but otherwise unchanged; no-truncate mode is the identity on the text. -/
theorem C1_truncation (t : List Char) (m : Nat) :
    ((collapseText t).length > m →
       truncate_text t m = pyRstrip ((collapseText t).take m) ++ "...".toList
       ∧ (∃ r, pyRstrip ((collapseText t).take m) ++ r = collapseText t)
       ∧ (truncate_text t m).length ≤ m + 3)
    ∧ ((collapseText t).length ≤ m → truncate_text t m = collapseText t)
    ∧ maybe_truncate t m true = t := by
  refine ⟨?_, ?_, by simp [maybe_truncate]⟩
  · intro h
    have ht : t ≠ [] := by
      intro he
      rw [he] at h
      simp [collapseText] at h
    have e1 : truncate_text t m =
        pyRstrip ((collapseText t).take m) ++ "...".toList := by
      simp [truncate_text, ht, h]
    refine ⟨e1, ?_, ?_⟩
    · refine ⟨(((collapseText t).take m).reverse.takeWhile pyIsSpace).reverse
        ++ (collapseText t).drop m, ?_⟩
      rw [← List.append_assoc, pyRstrip_append_eq, List.take_append_drop]
    · have h2 := pyRstrip_length_le ((collapseText t).take m)
      have h3 : ((collapseText t).take m).length ≤ m := by
        rw [List.length_take]; omega
      have h4 : ("...".toList).length = 3 := by decide
      rw [e1, List.length_append]
      omega
  · intro h
    by_cases ht : t = []
    · rw [ht]; simp [truncate_text, collapseText]
    · have hnot : ¬ ((collapseText t).length > m) := by omega
      simp [truncate_text, ht, hnot]

/-- Witness for the amended C1, at both a truncating and a
non-truncating input. -/
theorem C1_truncation_witness :
    (truncate_text "aaaa b".toList 5 =
        pyRstrip ((collapseText "aaaa b".toList).take 5) ++ "...".toList
      ∧ (∃ r, pyRstrip ((collapseText "aaaa b".toList).take 5) ++ r =
          collapseText "aaaa b".toList)
      ∧ (truncate_text "aaaa b".toList 5).length ≤ 5 + 3)
    ∧ truncate_text "ab cd".toList 20 = collapseText "ab cd".toList :=
  ⟨(C1_truncation "aaaa b".toList 5).1 (by decide),
   (C1_truncation "ab cd".toList 20).2.1 (by decide)⟩

/-- C2 fails as stated: rendering the submolt listing mutates the
envelope.  With two submolts in ascending subscriber order, the envelope
that comes back from the formatted rendering carries them reordered. -/
theorem C2_counterexample :
    (renderSubmolts
        ⟨some [⟨none, none, some 1, none⟩, ⟨none, none, some 2, none⟩]⟩
        50).2 ≠
      ⟨some [⟨none, none, some 1, none⟩, ⟨none, none, some 2, none⟩]⟩ := by
  decide

/-- C2 (amended): after the formatted submolt rendering the envelope is
unchanged except that its `submolts` list has been reordered in place
into the stable descending-subscriber-count order (a permutation of the
original; the envelope is bytewise unchanged only when the list was
already in that order, in particular when it is empty or missing). -/
theorem C2_render_purity (e : SubmoltsEnvelope) (limit : Nat) :
    (renderSubmolts e limit).2.submolts = e.submolts.map pySortDesc
    ∧ ∀ l, e.submolts = some l → (pySortDesc l).Perm l := by
  constructor
  · rcases e with ⟨_ | l⟩
    · rfl
    · by_cases hl : l = []
      · rw [hl]; rfl
      · simp [renderSubmolts, hl]
  · intro l _
    exact pySortDesc_perm l

/-- Witness for the amended C2 on a one-element envelope. -/
theorem C2_render_purity_witness :
    (renderSubmolts ⟨some [⟨none, none, some 3, none⟩]⟩ 10).2.submolts =
        (some [⟨none, none, some 3, none⟩]).map pySortDesc
      ∧ (pySortDesc [⟨none, none, some 3, none⟩]).Perm
          [⟨none, none, some 3, none⟩] :=
  ⟨(C2_render_purity ⟨some [⟨none, none, some 3, none⟩]⟩ 10).1,
   (C2_render_purity ⟨some [⟨none, none, some 3, none⟩]⟩ 10).2 _ rfl⟩

/-- C6: the submolt listing renders the full list sorted (stably) by
non-increasing subscriber count with missing counts as zero, caps to the
display limit only after sorting, and shows min(limit, total) rows. -/
theorem C6_submolt_listing (l : List Submolt) (limit : Nat) :
    (renderSubmolts ⟨some l⟩ limit).1.rows =
        ((pySortDesc l).take limit).map submoltRow
    ∧ ((renderSubmolts ⟨some l⟩ limit).1.rows).length = min limit l.length
    ∧ ((renderSubmolts ⟨some l⟩ limit).1.rows).Pairwise
        (fun a b => b.count ≤ a.count)
    ∧ (pySortDesc l).Perm l
    ∧ ∀ c : Int, (pySortDesc l).filter (fun s => pyKey s = c) =
        l.filter (fun s => pyKey s = c) := by
  have hrows : (renderSubmolts ⟨some l⟩ limit).1.rows =
      ((pySortDesc l).take limit).map submoltRow := by
    by_cases hl : l = []
    · rw [hl]; simp [renderSubmolts, pySortDesc, indexedFrom]
    · simp [renderSubmolts, hl]
  refine ⟨hrows, ?_, ?_, pySortDesc_perm l, pySortDesc_filter_key l⟩
  · rw [hrows, List.length_map, List.length_take,
      (pySortDesc_perm l).length_eq]
  · rw [hrows]
    have htake := List.Pairwise.sublist
      (List.take_sublist limit (pySortDesc l)) (pySortDesc_pairwise l)
    rw [List.pairwise_map]
    exact List.Pairwise.imp (fun hab => hab) htake

/-- C7: the example timestamp renders as claimed (a trailing Z read as
the UTC offset), and any string whose Z-expansion fails to parse comes
back unchanged. -/
theorem C7_format_timestamp :
    format_timestamp "2024-01-15T10:30:00Z".toList =
        "2024-01-15 10:30".toList
    ∧ ∀ s : List Char,
        fromisoformat (pyReplaceZ s) = none → format_timestamp s = s := by
  refine ⟨by decide, ?_⟩
  intro s hs
  unfold format_timestamp
  rw [hs]

/-- Witness for C7's parse-failure branch. -/
theorem C7_format_timestamp_witness :
    format_timestamp "not a timestamp".toList = "not a timestamp".toList :=
  C7_format_timestamp.2 _ (by decide)

/-- C3: with retryable statuses the executor retries and returns the
deserialized body when a later attempt (within the budget of 3 retries)
is a 2xx; after four retryable responses it fails with the HTTP-error
outcome ("HTTP status", exit status 1); a non-retryable error status
fails at once, with no sleep and only one issued attempt. -/
theorem C3_retry_policy {β : Type} (env : Option (List Char))
    (file : CredFile) (auth : Bool) (resp : Nat → AttemptResult β) :
    (∀ (k s : Nat) (ra : Option (List Char)) (b : β),
        k ≤ MAX_RETRIES →
        (∀ i, i < k → isRetryable (resp i) = true) →
        resp k = .response s ra (some b) →
        200 ≤ s → s < 300 →
        (make_request env file auth resp).outcome = .ok b)
    ∧ (∀ (s : Nat) (ra : Option (List Char)) (b : Option β),
        (∀ i, i ≤ MAX_RETRIES → isRetryable (resp i) = true) →
        resp MAX_RETRIES = .response s ra b →
        (make_request env file auth resp).outcome = .httpError s
        ∧ exitCode (make_request env file auth resp).outcome = 1
        ∧ errorMessage (make_request env file auth resp).outcome =
            some ("Error: HTTP ".toList ++ natToChars s))
    ∧ (∀ (s : Nat) (ra : Option (List Char)) (b : Option β),
        resp 0 = .response s ra b → s ∉ RETRY_STATUSES →
        400 ≤ s → s < 600 →
        (make_request env file auth resp).outcome = .httpError s
        ∧ (make_request env file auth resp).waits = []
        ∧ (make_request env file auth resp).headersSent.length = 1) := by
  refine ⟨?_, ?_, ?_⟩
  · intro k s ra b hk hret hresp h2 h3
    refine requestLoop_ok resp (requestHeaders env file auth) k
      (MAX_RETRIES + 1) 0 s ra b rfl ?_ ?_ ?_ h2 h3
    · rwa [Nat.zero_add]
    · intro i hi
      have h := hret i hi
      rwa [Nat.zero_add]
    · rwa [Nat.zero_add]
  · intro s ra b hall hresp
    have h0 := hall 0 (by decide)
    have h1 := hall 1 (by decide)
    have h2 := hall 2 (by decide)
    have h3 := hall 3 (by decide)
    have hs : s ∈ RETRY_STATUSES := by
      have h3' := h3
      rw [show (3 : Nat) = MAX_RETRIES from rfl, hresp] at h3'
      simpa [isRetryable] using h3'
    have hs' : 400 ≤ s ∧ s < 600 := by
      simp [RETRY_STATUSES] at hs
      omega
    have hout : (make_request env file auth resp).outcome = .httpError s := by
      have hresp' : resp 3 = .response s ra b := hresp
      simp [make_request, requestLoop, MAX_RETRIES, h0, h1, h2, hresp',
        handleResponse, hs']
    exact ⟨hout, by rw [hout]; rfl, by rw [hout]; rfl⟩
  · intro s ra b hresp hs h4 h6
    have hnr : isRetryable (resp 0) = false := by
      rw [hresp]
      simpa [isRetryable] using hs
    have hcond : ¬ (isRetryable (resp 0) = true ∧ 0 < MAX_RETRIES) := by
      rw [hnr]; simp
    have hx : make_request env file auth resp =
        { outcome := handleResponse (resp 0), waits := [],
          headersSent := [requestHeaders env file auth] } := by
      show requestLoop resp (requestHeaders env file auth)
        (MAX_RETRIES + 1) 0 = _
      simp only [requestLoop]
      rw [if_neg hcond]
    rw [hx, hresp]
    refine ⟨?_, rfl, rfl⟩
    simp [handleResponse, h4, h6]

/-- Witness for C3: a success on the third attempt after two 503s, and
budget exhaustion on four consecutive 503s. -/
theorem C3_retry_policy_witness :
    (make_request none .missing false
        (fun i => if i < 2 then .response 503 none none
          else .response 200 none (some (7 : Nat)))).outcome = .ok 7
    ∧ (make_request none .missing false
        (fun _ => (.response 503 none none : AttemptResult Nat))).outcome =
      .httpError 503 :=
  ⟨(C3_retry_policy none .missing false _).1 2 200 none 7 (by decide)
      (fun i hi => by
        have h : i = 0 ∨ i = 1 := by omega
        rcases h with h | h <;> subst h <;> decide)
      (by decide) (by decide) (by decide),
   ((C3_retry_policy none .missing false _).2.1 503 none none
      (fun i _ => by decide) (by decide)).1⟩

/-- C4: a retryable response carrying a usable numeric Retry-After hint
makes the executor sleep exactly that many seconds before the next
attempt, ignoring the backoff value. -/
theorem C4_retry_hint {β : Type} (env : Option (List Char))
    (file : CredFile) (auth : Bool) (resp : Nat → AttemptResult β)
    (n s : Nat) (ra : List Char) (b : Option β) :
    n < MAX_RETRIES →
    (∀ i, i ≤ n → isRetryable (resp i) = true) →
    resp n = .response s (some ra) b →
    ra ≠ [] → ra.all isDigitChar = true →
    (make_request env file auth resp).waits[n]? = some (digitsToNat ra) := by
  intro hn hall hresp hne hdig
  have h := requestLoop_waits resp (requestHeaders env file auth) n
    (MAX_RETRIES + 1) 0 (by
      have : (MAX_RETRIES : Nat) = 3 := rfl
      omega)
    (by rwa [Nat.zero_add])
    (fun i hi => by
      have h := hall i hi
      rwa [Nat.zero_add])
  rw [Nat.zero_add] at h
  show (requestLoop resp (requestHeaders env file auth)
    (MAX_RETRIES + 1) 0).waits[n]? = some (digitsToNat ra)
  rw [h, hresp]
  simp [retryWait, hintValue, hne, hdig]

/-- Witness for C4: a 429 with hint "17" sleeps 17 seconds. -/
theorem C4_retry_hint_witness :
    (make_request none .missing false
        (fun _ => (.response 429 (some "17".toList) none :
          AttemptResult Nat))).waits[0]? = some (digitsToNat "17".toList) :=
  C4_retry_hint none .missing false _ 0 429 "17".toList none (by decide)
    (fun i _ => by decide) (by decide) (by decide) (by decide)

/-- C5: a retryable response without a usable hint makes retry `n`
(0-indexed) wait `1.5 ^ n` truncated toward zero — here the exact dyadic
`3 ^ n / 2 ^ n` in integer division — i.e. 1, 1, 2 seconds for
attempts 0, 1, 2. -/
theorem C5_backoff_schedule {β : Type} (env : Option (List Char))
    (file : CredFile) (auth : Bool) (resp : Nat → AttemptResult β)
    (n : Nat) :
    (n < MAX_RETRIES →
      (∀ i, i ≤ n → isRetryable (resp i) = true) →
      hintValue (resp n) = none →
      (make_request env file auth resp).waits[n]? = some (3 ^ n / 2 ^ n))
    ∧ backoff 0 = 1 ∧ backoff 1 = 1 ∧ backoff 2 = 2 := by
  refine ⟨?_, by decide, by decide, by decide⟩
  intro hn hall hnone
  have h := requestLoop_waits resp (requestHeaders env file auth) n
    (MAX_RETRIES + 1) 0 (by
      have : (MAX_RETRIES : Nat) = 3 := rfl
      omega)
    (by rwa [Nat.zero_add])
    (fun i hi => by
      have h := hall i hi
      rwa [Nat.zero_add])
  rw [Nat.zero_add] at h
  show (requestLoop resp (requestHeaders env file auth)
    (MAX_RETRIES + 1) 0).waits[n]? = some (3 ^ n / 2 ^ n)
  rw [h]
  simp [retryWait, hnone, backoff]

/-- Witness for C5: a hintless 500 on attempt 0 sleeps `3 ^ 0 / 2 ^ 0`
(that is, 1 second). -/
theorem C5_backoff_schedule_witness :
    (make_request none .missing false
        (fun _ => (.response 500 none none :
          AttemptResult Nat))).waits[0]? = some (3 ^ 0 / 2 ^ 0) :=
  (C5_backoff_schedule none .missing false _ 0).1 (by decide)
    (fun i _ => by decide) (by decide)

/-- C8: a non-empty environment key wins without the file mattering; with
no environment key the file's `api_key` field (or `None` on a missing,
unreadable or malformed file) is the result; and a `None` credential
leaves the request running with no Authorization header rather than
failing. -/
theorem C8_credentials :
    (∀ (k : List Char) (file : CredFile), k ≠ [] →
        get_api_key (some k) file = some k)
    ∧ (∀ file : CredFile, get_api_key none file = credFileApiKey file)
    ∧ (∀ env : Option (List Char), env = none ∨ env = some [] →
        get_api_key env .missing = none ∧
        get_api_key env .readError = none ∧
        get_api_key env .badJson = none)
    ∧ (∀ (env : Option (List Char)) (file : CredFile),
        get_api_key env file = none →
        (∀ v, ("Authorization".toList, v) ∉ requestHeaders env file true)
        ∧ ∀ (β : Type) (resp : Nat → AttemptResult β),
            (make_request env file true resp).outcome =
              (make_request none .missing false resp).outcome) := by
  refine ⟨?_, ?_, ?_, ?_⟩
  · intro k file hk
    simp [get_api_key, hk]
  · intro file
    rfl
  · rintro env (rfl | rfl) <;> exact ⟨rfl, rfl, rfl⟩
  · intro env file hnone
    constructor
    · intro v hv
      have hb : requestHeaders env file true =
          [("User-Agent".toList, "Moltbook-Reader/1.0".toList)] := by
        simp [requestHeaders, hnone]
      rw [hb] at hv
      simp at hv
    · intro β resp
      exact requestLoop_outcome_hdrs resp _ _ (MAX_RETRIES + 1) 0

/-- Witness for C8 at concrete credential configurations. -/
theorem C8_credentials_witness :
    get_api_key (some "abc".toList) .badJson = some "abc".toList
    ∧ get_api_key none (.parsed (some "xyz".toList)) =
        credFileApiKey (.parsed (some "xyz".toList))
    ∧ get_api_key (some []) .badJson = none
    ∧ (∀ v, ("Authorization".toList, v) ∉ requestHeaders none .missing true) :=
  ⟨C8_credentials.1 "abc".toList .badJson (by decide),
   C8_credentials.2.1 (.parsed (some "xyz".toList)),
   (C8_credentials.2.2.1 (some []) (Or.inr rfl)).2.2,
   (C8_credentials.2.2.2 none .missing rfl).1⟩

/-- C9: every attempt of one request is sent with the headers resolved
once up front, so the Authorization header is either present with the
same bearer token on every attempt or absent from all of them. -/
theorem C9_header_once {β : Type} (env : Option (List Char))
    (file : CredFile) (auth : Bool) (resp : Nat → AttemptResult β) :
    (∀ h ∈ (make_request env file auth resp).headersSent,
        h = requestHeaders env file auth)
    ∧ ((∃ k, k ≠ [] ∧
          ∀ h ∈ (make_request env file auth resp).headersSent,
            ("Authorization".toList, "Bearer ".toList ++ k) ∈ h)
       ∨ (∀ h ∈ (make_request env file auth resp).headersSent,
            ∀ v, ("Authorization".toList, v) ∉ h)) := by
  have hall := requestLoop_headers resp (requestHeaders env file auth)
    (MAX_RETRIES + 1) 0
  refine ⟨hall, ?_⟩
  have hBase : requestHeaders env file auth =
        [("User-Agent".toList, "Moltbook-Reader/1.0".toList)] →
      ∀ h ∈ (make_request env file auth resp).headersSent,
        ∀ v, ("Authorization".toList, v) ∉ h := by
    intro hb h hh v hv
    rw [hall h hh, hb] at hv
    simp at hv
  by_cases hauth : auth
  · rcases hk : get_api_key env file with _ | k
    · refine Or.inr (hBase ?_)
      simp [requestHeaders, hauth, hk]
    · by_cases hke : k = []
      · refine Or.inr (hBase ?_)
        simp [requestHeaders, hauth, hk, hke]
      · refine Or.inl ⟨k, hke, ?_⟩
        intro h hh
        rw [hall h hh]
        simp [requestHeaders, hauth, hk, hke]
  · refine Or.inr (hBase ?_)
    simp [requestHeaders, hauth]

/-- Witness for C9: with a key on file, the one issued attempt of a
successful request carried exactly the up-front headers, bearer token
included. -/
theorem C9_header_once_witness :
    [("User-Agent".toList, "Moltbook-Reader/1.0".toList),
     ("Authorization".toList, "Bearer key1".toList)] =
      requestHeaders none (.parsed (some "key1".toList)) true :=
  (C9_header_once none (.parsed (some "key1".toList)) true
      (fun _ => .response 200 none (some (0 : Nat)))).1 _ (by decide)

/-- C10: the fetch renderer shows the "Post not found" notice and no
panel — and the command still exits 0 — whenever the "post" field is
missing or holds any falsy value (null, the empty object, the empty
string). -/
theorem C10_fetch_not_found (data : PyJson) :
    (objGet data "post".toList = none →
        renderFetch data = { notFound := true, panel := none, exit := 0 })
    ∧ (∀ p, objGet data "post".toList = some p → pyTruthy p = false →
        renderFetch data = { notFound := true, panel := none, exit := 0 })
    ∧ pyTruthy .null = false
    ∧ pyTruthy (.obj []) = false
    ∧ pyTruthy (.str []) = false := by
  refine ⟨?_, ?_, rfl, rfl, rfl⟩
  · intro h
    simp only [renderFetch]
    rw [h]
  · intro p hp hfal
    simp only [renderFetch]
    rw [hp]
    simp [hfal]

/-- Witness for C10 at a missing field, a null, an empty object and an
empty string. -/
theorem C10_fetch_not_found_witness :
    renderFetch (.obj [("post".toList, .obj [])]) =
        { notFound := true, panel := none, exit := 0 }
    ∧ renderFetch (.obj [("post".toList, .null)]) =
        { notFound := true, panel := none, exit := 0 }
    ∧ renderFetch (.obj [("post".toList, .str [])]) =
        { notFound := true, panel := none, exit := 0 }
    ∧ renderFetch (.obj []) =
        { notFound := true, panel := none, exit := 0 } :=
  ⟨(C10_fetch_not_found _).2.1 _ rfl rfl,
   (C10_fetch_not_found _).2.1 _ rfl rfl,
   (C10_fetch_not_found _).2.1 _ rfl rfl,
   (C10_fetch_not_found _).1 rfl⟩

end Moltbook
